import Mathlib

/-!
Verification of the term-resolution and suggestion engine of `rdf-mcp`
(`src/rdf_mcp/servers/brick_server.py`), as a shallow embedding.

The similarity scorer (`smash_distance`, imported from `rdf_mcp.utils.smash`)
is an external collaborator; it is modelled as an explicit function argument
`score : String → String → Nat` (lower is more similar), matching the pluggable
scorer contract.  The vocabulary snapshots returned by `get_terms` and
`get_properties` are modelled as explicit list arguments, and the global
`CLASS_DICT` as an explicit association list.  Python's `sorted(xs, key=k)` is
a stable ascending sort by key; it is modelled by `List.insertionSort` with the
reflexive-total relation `fun a b => k a ≤ k b`, which is exactly the stable
ascending sort by key.
-/

namespace RdfMcp

/-- One entry of the `suggestions` list produced by `validate_brick_term`:
the Python dict `{"term": s, "type": kind}`. -/
structure Suggestion where
  term : String
  type : String
  deriving DecidableEq, Repr

/-- The result dict of `validate_brick_term`. -/
structure ValidationResult where
  valid : Bool
  type : String
  term : String
  suggestions : List Suggestion
  deriving DecidableEq, Repr

/-- The result dict of `validate_brick_tag` (tests only use the keys
`valid`, `tag`, `suggestions`). -/
structure TagValidationResult where
  valid : Bool
  tag : String
  suggestions : List String
  deriving DecidableEq, Repr

/-- Model of Python `sorted(xs, key=key)`: a stable sort, ascending in `key`. -/
def sortByKey {α : Type} (key : α → Nat) (xs : List α) : List α :=
  xs.insertionSort (fun a b => key a ≤ key b)

/-- Model of `sorted(vocab, key=lambda x: smash_distance(term, x))[:5]`,
the ranked-suggestion computation used throughout `brick_server.py`. -/
def suggestTop5 (score : String → String → Nat) (term : String)
    (vocab : List String) : List String :=
  (sortByKey (fun x => score term x) vocab).take 5

/-- The suggestion-building block of `validate_brick_term`
(`brick_server.py` lines 139–164), reached when the term is not valid:
per-kind top-5 lists are built for each kind allowed by `concept_type`,
concatenated, and re-sorted and truncated to 5 only when `concept_type` is
`None` and the concatenation has more than 5 entries. -/
def missSuggestions (score : String → String → Nat)
    (all_classes all_properties : List String)
    (term : String) (concept_type : Option String) : List Suggestion :=
  let class_suggestions : List Suggestion :=
    if concept_type = some "class" ∨ concept_type = none then
      (suggestTop5 score term all_classes).map (fun s => { term := s, type := "class" })
    else []
  let property_suggestions : List Suggestion :=
    if concept_type = some "property" ∨ concept_type = none then
      (suggestTop5 score term all_properties).map (fun s => { term := s, type := "property" })
    else []
  let combined := class_suggestions ++ property_suggestions
  if concept_type = none ∧ 5 < combined.length then
    (sortByKey (fun s => score term s.term) combined).take 5
  else
    combined

/-- Embedding of `validate_brick_term` (`brick_server.py` lines 100–167).
The exact-match checks mirror lines 122–136: the class vocabulary is
consulted when `concept_type` is `None` or `"class"`, then the property
vocabulary when `concept_type` is `None` or `"property"`, each hit returning
immediately.  Otherwise the Python `if not result["valid"]` branch is always
taken (every mutation of `valid` returns at once), yielding the
`missSuggestions` value. -/
def validate_brick_term (score : String → String → Nat)
    (all_classes all_properties : List String)
    (term : String) (concept_type : Option String) : ValidationResult :=
  if (concept_type = none ∨ concept_type = some "class") ∧ term ∈ all_classes then
    { valid := true, type := "class", term := term, suggestions := [] }
  else if (concept_type = none ∨ concept_type = some "property") ∧ term ∈ all_properties then
    { valid := true, type := "property", term := term, suggestions := [] }
  else
    { valid := false, type := "unknown", term := term,
      suggestions := missSuggestions score all_classes all_properties term concept_type }

/-- Modelled from the spec: `validate_brick_tag` is exercised by
`src/tests/test_brick.py` (together with its vocabulary accessor
`get_all_brick_tags`) but its definition is not under `src/`.  Following
spec §4.7: the shape of the term validator over the single tag vocabulary,
with a case-sensitive exact-membership test, empty suggestions when valid,
and otherwise a flat ordered list of the top-5 closest tag strings under
the scorer (no kind tagging, no type-restriction parameter). -/
def validate_brick_tag (score : String → String → Nat)
    (all_tags : List String) (tag : String) : TagValidationResult :=
  if tag ∈ all_tags then
    { valid := true, tag := tag, suggestions := [] }
  else
    { valid := false, tag := tag, suggestions := suggestTop5 score tag all_tags }

/-- Embedding of `expand_abbreviation` (`brick_server.py` lines 14–22):
`sorted(CLASS_DICT.keys(), key=lambda x: smash_distance(abbreviation, x))[:5]`.
`CLASS_DICT` maps display labels to class terms (`build_class_dict`,
lines 209–220); it is modelled as an association list whose first components
are the labels, so `class_dict.map Prod.fst` plays the role of
`CLASS_DICT.keys()`. -/
def expand_abbreviation (score : String → String → Nat)
    (class_dict : List (String × String)) (abbreviation : String) : List String :=
  (sortByKey (fun x => score abbreviation x) (class_dict.map Prod.fst)).take 5

/-- Ascending order of a list under a numeric key: the sortedness property
the spec asserts of suggestion lists. -/
def SortedByKey {α : Type} (key : α → Nat) (l : List α) : Prop :=
  l.Pairwise (fun a b => key a ≤ key b)

instance {α : Type} (key : α → Nat) (l : List α) : Decidable (SortedByKey key l) :=
  inferInstanceAs (Decidable (l.Pairwise _))

/-- A concrete similarity scorer used for concrete evaluations: distance 0
for identical strings, otherwise one more than the candidate's length.  It
satisfies the scorer contract of spec §4.4 (deterministic, totally ordered
scores, identical strings at or below any non-identical pair). -/
def lenScore (q c : String) : Nat :=
  if q = c then 0 else c.length + 1

example : validate_brick_term lenScore ["Air"] ["hasPoint"] "Air" none =
    { valid := true, type := "class", term := "Air", suggestions := [] } := by decide

example : validate_brick_term lenScore ["ZZZZ"] ["ax"] "ab" none =
    { valid := false, type := "unknown", term := "ab",
      suggestions := [{ term := "ZZZZ", type := "class" },
                      { term := "ax", type := "property" }] } := by decide

/-! ### Basic lemmas about the stable sort model -/

theorem sortByKey_perm {α : Type} (key : α → Nat) (xs : List α) :
    List.Perm (sortByKey key xs) xs :=
  List.perm_insertionSort _ _

theorem length_sortByKey {α : Type} (key : α → Nat) (xs : List α) :
    (sortByKey key xs).length = xs.length :=
  List.length_insertionSort _ _

theorem mem_sortByKey {α : Type} {key : α → Nat} {xs : List α} {a : α} :
    a ∈ sortByKey key xs ↔ a ∈ xs :=
  List.mem_insertionSort _

theorem sortByKey_sortedByKey {α : Type} (key : α → Nat) (xs : List α) :
    SortedByKey key (sortByKey key xs) := by
  haveI : IsTotal α (fun a b => key a ≤ key b) := ⟨fun a b => Nat.le_total _ _⟩
  haveI : IsTrans α (fun a b => key a ≤ key b) := ⟨fun a b c hab hbc => Nat.le_trans hab hbc⟩
  exact List.sorted_insertionSort _ _

theorem suggestTop5_spec (score : String → String → Nat) (term : String)
    (vocab : List String) :
    ∃ l, vocab.Perm l ∧ SortedByKey (score term) l ∧
      suggestTop5 score term vocab = l.take 5 :=
  ⟨sortByKey (fun x => score term x) vocab, (sortByKey_perm _ _).symm,
    sortByKey_sortedByKey _ _, rfl⟩

theorem length_suggestTop5 (score : String → String → Nat) (term : String)
    (vocab : List String) :
    (suggestTop5 score term vocab).length = min 5 vocab.length := by
  simp [suggestTop5, List.length_take, length_sortByKey]

theorem length_suggestTop5_le (score : String → String → Nat) (term : String)
    (vocab : List String) :
    (suggestTop5 score term vocab).length ≤ 5 := by
  rw [length_suggestTop5]; exact Nat.min_le_left _ _

theorem suggestTop5_sorted (score : String → String → Nat) (term : String)
    (vocab : List String) :
    SortedByKey (score term) (suggestTop5 score term vocab) :=
  List.Pairwise.sublist (List.take_sublist _ _) (sortByKey_sortedByKey _ _)

theorem mem_of_mem_suggestTop5 {score : String → String → Nat} {term : String}
    {vocab : List String} {s : String} (h : s ∈ suggestTop5 score term vocab) :
    s ∈ vocab :=
  mem_sortByKey.mp (List.mem_of_mem_take h)

theorem suggestTop5_ne_nil {score : String → String → Nat} {term : String}
    {vocab : List String} (h : vocab ≠ []) :
    suggestTop5 score term vocab ≠ [] := by
  intro hnil
  have hlen := congrArg List.length hnil
  rw [length_suggestTop5] at hlen
  rcases vocab with _ | ⟨v, vs⟩
  · exact h rfl
  · simp [Nat.min_def] at hlen
    split at hlen <;> omega

/-! ### Branch lemmas for `validate_brick_term` -/

theorem validate_class_hit {score : String → String → Nat}
    {classes props : List String} {term : String} {ct : Option String}
    (hct : ct = none ∨ ct = some "class") (h : term ∈ classes) :
    validate_brick_term score classes props term ct =
      { valid := true, type := "class", term := term, suggestions := [] } := by
  unfold validate_brick_term
  rw [if_pos ⟨hct, h⟩]

theorem validate_property_hit {score : String → String → Nat}
    {classes props : List String} {term : String} {ct : Option String}
    (h1 : ¬((ct = none ∨ ct = some "class") ∧ term ∈ classes))
    (hct : ct = none ∨ ct = some "property") (h : term ∈ props) :
    validate_brick_term score classes props term ct =
      { valid := true, type := "property", term := term, suggestions := [] } := by
  unfold validate_brick_term
  rw [if_neg h1, if_pos ⟨hct, h⟩]

theorem validate_miss {score : String → String → Nat}
    {classes props : List String} {term : String} {ct : Option String}
    (h1 : ¬((ct = none ∨ ct = some "class") ∧ term ∈ classes))
    (h2 : ¬((ct = none ∨ ct = some "property") ∧ term ∈ props)) :
    validate_brick_term score classes props term ct =
      { valid := false, type := "unknown", term := term,
        suggestions := missSuggestions score classes props term ct } := by
  unfold validate_brick_term
  rw [if_neg h1, if_neg h2]

/-! ### Shape lemmas for `missSuggestions` -/

theorem missSuggestions_other {score : String → String → Nat}
    {classes props : List String} {term : String} {c : String}
    (hc : c ≠ "class") (hp : c ≠ "property") :
    missSuggestions score classes props term (some c) = [] := by
  unfold missSuggestions
  simp [hc, hp]

theorem missSuggestions_class (score : String → String → Nat)
    (classes props : List String) (term : String) :
    missSuggestions score classes props term (some "class") =
      (suggestTop5 score term classes).map (fun s => { term := s, type := "class" }) := by
  unfold missSuggestions
  simp

theorem missSuggestions_property (score : String → String → Nat)
    (classes props : List String) (term : String) :
    missSuggestions score classes props term (some "property") =
      (suggestTop5 score term props).map (fun s => { term := s, type := "property" }) := by
  unfold missSuggestions
  simp

theorem missSuggestions_none (score : String → String → Nat)
    (classes props : List String) (term : String) :
    missSuggestions score classes props term none =
      if 5 < ((suggestTop5 score term classes).map (fun s => { term := s, type := "class" }) ++
          (suggestTop5 score term props).map
            (fun s => { term := s, type := "property" }) : List Suggestion).length then
        (sortByKey (fun s => score term s.term)
          ((suggestTop5 score term classes).map (fun s => { term := s, type := "class" }) ++
           (suggestTop5 score term props).map (fun s => { term := s, type := "property" }))).take 5
      else
        (suggestTop5 score term classes).map (fun s => { term := s, type := "class" }) ++
        (suggestTop5 score term props).map (fun s => { term := s, type := "property" }) := by
  unfold missSuggestions
  simp

theorem length_missSuggestions_le (score : String → String → Nat)
    (classes props : List String) (term : String) (ct : Option String) :
    (missSuggestions score classes props term ct).length ≤ 5 := by
  rcases ct with _ | c
  · rw [missSuggestions_none]
    split
    · exact List.length_take_le _ _
    · omega
  · by_cases hc : c = "class"
    · subst hc
      rw [missSuggestions_class]
      rw [List.length_map]
      exact length_suggestTop5_le _ _ _
    · by_cases hp : c = "property"
      · subst hp
        rw [missSuggestions_property]
        rw [List.length_map]
        exact length_suggestTop5_le _ _ _
      · rw [missSuggestions_other hc hp]
        simp

/-! ### Claim theorems -/

/-- C4: for every term that is a member of both the class vocabulary and the
property vocabulary, unrestricted validation (`concept_type` unset) returns
`valid=true` with `type="class"` and never `type="property"`: the class
vocabulary is checked first and a hit short-circuits without consulting the
property vocabulary. -/
theorem c4_class_precedence (score : String → String → Nat)
    (classes props : List String) (term : String)
    (hc : term ∈ classes) (hp : term ∈ props) :
    validate_brick_term score classes props term none =
      { valid := true, type := "class", term := term, suggestions := [] } :=
  validate_class_hit (Or.inl rfl) hc

/-- Witness for C4 at a concrete input: the term "X" lies in both
vocabularies and unrestricted validation reports a class hit. -/
theorem c4_class_precedence_witness :
    "X" ∈ (["X"] : List String) ∧ "X" ∈ (["X", "Y"] : List String) ∧
    validate_brick_term lenScore ["X"] ["X", "Y"] "X" none =
      { valid := true, type := "class", term := "X", suggestions := [] } :=
  ⟨by decide, by decide,
    c4_class_precedence lenScore ["X"] ["X", "Y"] "X" (by decide) (by decide)⟩

/-- C5: for every input term and every `concept_type` value, the suggestions
list in the result of `validate_brick_term` has length at most 5. -/
theorem c5_budget (score : String → String → Nat)
    (classes props : List String) (term : String) (ct : Option String) :
    (validate_brick_term score classes props term ct).suggestions.length ≤ 5 := by
  by_cases h1 : (ct = none ∨ ct = some "class") ∧ term ∈ classes
  · rw [validate_class_hit h1.1 h1.2]
    simp
  · by_cases h2 : (ct = none ∨ ct = some "property") ∧ term ∈ props
    · rw [validate_property_hit h1 h2.1 h2.2]
      simp
    · rw [validate_miss h1 h2]
      exact length_missSuggestions_le _ _ _ _ _

/-- C10: in every result of `validate_brick_term`, the `type` field is
"unknown" exactly when `valid` is false, and is one of "class"/"property"
exactly when `valid` is true. -/
theorem c10_type_matches_validity (score : String → String → Nat)
    (classes props : List String) (term : String) (ct : Option String) :
    ((validate_brick_term score classes props term ct).valid = false ↔
      (validate_brick_term score classes props term ct).type = "unknown") ∧
    ((validate_brick_term score classes props term ct).valid = true ↔
      ((validate_brick_term score classes props term ct).type = "class" ∨
       (validate_brick_term score classes props term ct).type = "property")) := by
  by_cases h1 : (ct = none ∨ ct = some "class") ∧ term ∈ classes
  · rw [validate_class_hit h1.1 h1.2]
    constructor
    · show true = false ↔ ("class" : String) = "unknown"
      decide
    · show true = true ↔ (("class" : String) = "class" ∨ ("class" : String) = "property")
      decide
  · by_cases h2 : (ct = none ∨ ct = some "property") ∧ term ∈ props
    · rw [validate_property_hit h1 h2.1 h2.2]
      constructor
      · show true = false ↔ ("property" : String) = "unknown"
        decide
      · show true = true ↔ (("property" : String) = "class" ∨ ("property" : String) = "property")
        decide
    · rw [validate_miss h1 h2]
      constructor
      · show false = false ↔ ("unknown" : String) = "unknown"
        decide
      · show false = true ↔ (("unknown" : String) = "class" ∨ ("unknown" : String) = "property")
        decide

/-- C9: given a deterministic scorer, two calls of `validate_brick_term` with
the same input string and the same unchanged vocabulary contents return
identical results, including the same suggestion order.  In this pure
embedding the two runs are two applications at equal inputs. -/
theorem c9_deterministic (score₁ score₂ : String → String → Nat)
    (classes₁ classes₂ props₁ props₂ : List String) (term₁ term₂ : String)
    (ct₁ ct₂ : Option String)
    (hs : score₁ = score₂) (hc : classes₁ = classes₂) (hp : props₁ = props₂)
    (ht : term₁ = term₂) (ho : ct₁ = ct₂) :
    validate_brick_term score₁ classes₁ props₁ term₁ ct₁ =
      validate_brick_term score₂ classes₂ props₂ term₂ ct₂ := by
  subst hs
  subst hc
  subst hp
  subst ht
  subst ho
  rfl

/-- Witness for C9 at a concrete input: two runs on the same data agree. -/
theorem c9_deterministic_witness :
    validate_brick_term lenScore ["Air"] ["hasPoint"] "Zone" none =
      validate_brick_term lenScore ["Air"] ["hasPoint"] "Zone" none :=
  c9_deterministic lenScore lenScore ["Air"] ["Air"] ["hasPoint"] ["hasPoint"]
    "Zone" "Zone" none none rfl rfl rfl rfl rfl

/-- C2 counterexample: the claim says an unrecognized `concept_type` such as
"tag" behaves identically to the unrestricted call.  In the code every check
is guarded by `concept_type is None or concept_type == "class"/"property"`,
so with `concept_type="tag"` neither vocabulary is consulted: the term "Air",
although present in the class vocabulary, is reported invalid with no
suggestions, while the unrestricted call reports it valid. -/
theorem c2_counterexample :
    (validate_brick_term lenScore ["Air"] ["hasPoint"] "Air" (some "tag")).valid = false ∧
    (validate_brick_term lenScore ["Air"] ["hasPoint"] "Air" (some "tag")).suggestions = [] ∧
    (validate_brick_term lenScore ["Air"] ["hasPoint"] "Air" none).valid = true := by
  decide

/-- C2 amended: for every `concept_type` value other than "class",
"property" and the unset value, `validate_brick_term` consults neither
vocabulary: it returns `valid=false`, `type="unknown"` and an empty
suggestions list for every input term. -/
theorem c2_amended_unknown_concept_type (score : String → String → Nat)
    (classes props : List String) (term : String) (c : String)
    (hcls : c ≠ "class") (hprop : c ≠ "property") :
    validate_brick_term score classes props term (some c) =
      { valid := false, type := "unknown", term := term, suggestions := [] } := by
  have h1 : ¬(((some c : Option String) = none ∨ (some c : Option String) = some "class") ∧
      term ∈ classes) := by
    rintro ⟨h | h, -⟩
    · exact Option.noConfusion h
    · exact hcls (Option.some.inj h)
  have h2 : ¬(((some c : Option String) = none ∨ (some c : Option String) = some "property") ∧
      term ∈ props) := by
    rintro ⟨h | h, -⟩
    · exact Option.noConfusion h
    · exact hprop (Option.some.inj h)
  rw [validate_miss h1 h2, missSuggestions_other hcls hprop]

/-- Witness for the amended C2 at a concrete input: `concept_type="tag"`
yields the empty-suggestion invalid result. -/
theorem c2_amended_unknown_concept_type_witness :
    validate_brick_term lenScore ["Air"] ["hasPoint"] "Zone" (some "tag") =
      { valid := false, type := "unknown", term := "Zone", suggestions := [] } :=
  c2_amended_unknown_concept_type lenScore ["Air"] ["hasPoint"] "Zone" "tag"
    (by decide) (by decide)

theorem missSuggestions_ne_nil {score : String → String → Nat}
    {classes props : List String} {term : String} {ct : Option String}
    (hct : ct = none ∨ ct = some "class" ∨ ct = some "property")
    (hcls : ct = some "class" → classes ≠ [])
    (hprop : ct = some "property" → props ≠ [])
    (hnone : ct = none → classes ≠ [] ∨ props ≠ []) :
    missSuggestions score classes props term ct ≠ [] := by
  rcases hct with hct | hct | hct
  · subst hct
    rw [missSuggestions_none]
    split
    · rename_i hgt
      intro hnil
      have := congrArg List.length hnil
      rw [List.length_take, length_sortByKey] at this
      simp only [List.length_nil] at this
      omega
    · rcases hnone rfl with h | h
      · intro hnil
        rcases List.append_eq_nil.mp hnil with ⟨hnil1, -⟩
        exact suggestTop5_ne_nil h (List.map_eq_nil_iff.mp hnil1)
      · intro hnil
        rcases List.append_eq_nil.mp hnil with ⟨-, hnil2⟩
        exact suggestTop5_ne_nil h (List.map_eq_nil_iff.mp hnil2)
  · subst hct
    rw [missSuggestions_class]
    intro hnil
    exact suggestTop5_ne_nil (hcls rfl) (List.map_eq_nil_iff.mp hnil)
  · subst hct
    rw [missSuggestions_property]
    intro hnil
    exact suggestTop5_ne_nil (hprop rfl) (List.map_eq_nil_iff.mp hnil)

/-- C1 counterexample: the claim asserts `valid == true` iff `suggestions`
is empty, for every input and every `concept_type`.  Two concrete inputs
refute the "invalid implies non-empty suggestions" direction: an
unrecognized `concept_type` value ("tag") returns invalid with no
suggestions even over non-empty vocabularies, and with both vocabularies
empty the unrestricted call also returns invalid with no suggestions. -/
theorem c1_counterexample :
    ((validate_brick_term lenScore ["Air"] ["hasPoint"] "Zone" (some "tag")).valid = false ∧
     (validate_brick_term lenScore ["Air"] ["hasPoint"] "Zone" (some "tag")).suggestions = []) ∧
    ((validate_brick_term lenScore [] [] "Zone" none).valid = false ∧
     (validate_brick_term lenScore [] [] "Zone" none).suggestions = []) := by
  decide

/-- C1 amended: when `concept_type` is unset, "class" or "property", and the
vocabularies consulted for suggestions are non-empty (the class vocabulary
for "class", the property vocabulary for "property", at least one of the two
when unset), the result of `validate_brick_term` satisfies `valid == true`
iff `suggestions` is empty.  (The forward direction, valid implies empty
suggestions, holds unconditionally; the stated hypotheses are needed for the
converse.) -/
theorem c1_amended_valid_iff_no_suggestions (score : String → String → Nat)
    (classes props : List String) (term : String) (ct : Option String)
    (hct : ct = none ∨ ct = some "class" ∨ ct = some "property")
    (hcls : ct = some "class" → classes ≠ [])
    (hprop : ct = some "property" → props ≠ [])
    (hnone : ct = none → classes ≠ [] ∨ props ≠ []) :
    ((validate_brick_term score classes props term ct).valid = true ↔
      (validate_brick_term score classes props term ct).suggestions = []) := by
  by_cases h1 : (ct = none ∨ ct = some "class") ∧ term ∈ classes
  · rw [validate_class_hit h1.1 h1.2]
    exact ⟨fun _ => rfl, fun _ => rfl⟩
  · by_cases h2 : (ct = none ∨ ct = some "property") ∧ term ∈ props
    · rw [validate_property_hit h1 h2.1 h2.2]
      exact ⟨fun _ => rfl, fun _ => rfl⟩
    · rw [validate_miss h1 h2]
      constructor
      · intro h
        exact Bool.noConfusion h
      · intro h
        exact absurd h (missSuggestions_ne_nil hct hcls hprop hnone)

/-- Witness for the amended C1 at a concrete input: unrestricted validation
over non-empty vocabularies. -/
theorem c1_amended_valid_iff_no_suggestions_witness :
    ((validate_brick_term lenScore ["Air"] ["hasPoint"] "Zone" none).valid = true ↔
      (validate_brick_term lenScore ["Air"] ["hasPoint"] "Zone" none).suggestions = []) :=
  c1_amended_valid_iff_no_suggestions lenScore ["Air"] ["hasPoint"] "Zone" none
    (Or.inl rfl) (fun h => Option.noConfusion h) (fun h => Option.noConfusion h)
    (fun _ => Or.inl (by decide))

/-- C6: when `validate_brick_term` is called with `concept_type="class"` on a
term not in the class vocabulary, the suggestions are exactly the first 5
class terms after sorting every class term ascending by scorer distance to
the input (a take-5 prefix of an ascending reordering of the whole class
vocabulary), each tagged with type "class"; symmetrically for
`concept_type="property"` over the property vocabulary. -/
theorem c6_restricted_suggestions (score : String → String → Nat)
    (classes props : List String) (term : String) :
    (term ∉ classes →
      ∃ l, List.Perm classes l ∧ SortedByKey (score term) l ∧
        (validate_brick_term score classes props term (some "class")).suggestions =
          (l.take 5).map (fun s => { term := s, type := "class" })) ∧
    (term ∉ props →
      ∃ l, List.Perm props l ∧ SortedByKey (score term) l ∧
        (validate_brick_term score classes props term (some "property")).suggestions =
          (l.take 5).map (fun s => { term := s, type := "property" })) := by
  constructor
  · intro hc
    have h1 : ¬(((some "class" : Option String) = none ∨
        (some "class" : Option String) = some "class") ∧ term ∈ classes) :=
      fun h => hc h.2
    have h2 : ¬(((some "class" : Option String) = none ∨
        (some "class" : Option String) = some "property") ∧ term ∈ props) := by
      rintro ⟨h | h, -⟩
      · exact Option.noConfusion h
      · exact absurd (Option.some.inj h) (by decide)
    rw [validate_miss h1 h2]
    obtain ⟨l, hperm, hsort, heq⟩ := suggestTop5_spec score term classes
    refine ⟨l, hperm, hsort, ?_⟩
    show missSuggestions score classes props term (some "class") = _
    rw [missSuggestions_class, heq]
  · intro hp
    have h1 : ¬(((some "property" : Option String) = none ∨
        (some "property" : Option String) = some "class") ∧ term ∈ classes) := by
      rintro ⟨h | h, -⟩
      · exact Option.noConfusion h
      · exact absurd (Option.some.inj h) (by decide)
    have h2 : ¬(((some "property" : Option String) = none ∨
        (some "property" : Option String) = some "property") ∧ term ∈ props) :=
      fun h => hp h.2
    rw [validate_miss h1 h2]
    obtain ⟨l, hperm, hsort, heq⟩ := suggestTop5_spec score term props
    refine ⟨l, hperm, hsort, ?_⟩
    show missSuggestions score classes props term (some "property") = _
    rw [missSuggestions_property, heq]

/-- Witness for C6 at a concrete input: the term "hasPoint" is in the
property vocabulary but not the class vocabulary, and conversely "Zone" is
a class but not a property, so each half's hypothesis is exercised on a
term the other vocabulary contains. -/
theorem c6_restricted_suggestions_witness :
    (∃ l, List.Perm ["Zone", "Air"] l ∧ SortedByKey (lenScore "hasPoint") l ∧
      (validate_brick_term lenScore ["Zone", "Air"] ["hasPoint"] "hasPoint"
          (some "class")).suggestions =
        (l.take 5).map (fun s => { term := s, type := "class" })) ∧
    (∃ l, List.Perm ["hasPoint"] l ∧ SortedByKey (lenScore "Zone") l ∧
      (validate_brick_term lenScore ["Zone", "Air"] ["hasPoint"] "Zone"
          (some "property")).suggestions =
        (l.take 5).map (fun s => { term := s, type := "property" })) :=
  ⟨(c6_restricted_suggestions lenScore ["Zone", "Air"] ["hasPoint"] "hasPoint").1 (by decide),
   (c6_restricted_suggestions lenScore ["Zone", "Air"] ["hasPoint"] "Zone").2 (by decide)⟩

/-- C8: for every abbreviation string, `expand_abbreviation` returns at most
5 results, and those results are the keys of the label mapping with the
smallest scorer distance to the abbreviation, ordered ascending by that
distance: the result is the take-5 prefix of an ascending reordering of the
label-mapping keys. -/
theorem c8_expand_abbreviation (score : String → String → Nat)
    (class_dict : List (String × String)) (abbreviation : String) :
    (expand_abbreviation score class_dict abbreviation).length ≤ 5 ∧
    ∃ l, List.Perm (class_dict.map Prod.fst) l ∧ SortedByKey (score abbreviation) l ∧
      expand_abbreviation score class_dict abbreviation = l.take 5 := by
  constructor
  · exact List.length_take_le _ _
  · exact ⟨sortByKey (fun x => score abbreviation x) (class_dict.map Prod.fst),
      (sortByKey_perm _ _).symm, sortByKey_sortedByKey _ _, rfl⟩

/-- C7: tag validation is case-sensitive with exact-match semantics.  Over
the tag vocabulary of the test (containing "Air" but not "air"), and for an
arbitrary scorer, `validate_brick_tag "Air"` returns `valid=true` with empty
suggestions, while `validate_brick_tag "air"` returns `valid=false` with
"Air" in its suggestion list, a flat ordered (ascending by scorer distance)
sequence of tag strings of length at most 5. -/
theorem c7_tag_case_sensitivity (score : String → String → Nat) :
    (validate_brick_tag score ["Air", "Temperature", "Sensor", "Zone"] "Air").valid = true ∧
    (validate_brick_tag score ["Air", "Temperature", "Sensor", "Zone"] "Air").suggestions = [] ∧
    (validate_brick_tag score ["Air", "Temperature", "Sensor", "Zone"] "air").valid = false ∧
    "Air" ∈ (validate_brick_tag score ["Air", "Temperature", "Sensor", "Zone"] "air").suggestions ∧
    (validate_brick_tag score ["Air", "Temperature", "Sensor", "Zone"] "air").suggestions.length ≤ 5 ∧
    SortedByKey (score "air")
      (validate_brick_tag score ["Air", "Temperature", "Sensor", "Zone"] "air").suggestions := by
  have hmem : ("Air" : String) ∈ (["Air", "Temperature", "Sensor", "Zone"] : List String) := by
    decide
  have hnot : ("air" : String) ∉ (["Air", "Temperature", "Sensor", "Zone"] : List String) := by
    decide
  have hvalid : validate_brick_tag score ["Air", "Temperature", "Sensor", "Zone"] "Air" =
      { valid := true, tag := "Air", suggestions := [] } := by
    unfold validate_brick_tag
    rw [if_pos hmem]
  have hinvalid : validate_brick_tag score ["Air", "Temperature", "Sensor", "Zone"] "air" =
      { valid := false, tag := "air",
        suggestions := suggestTop5 score "air" ["Air", "Temperature", "Sensor", "Zone"] } := by
    unfold validate_brick_tag
    rw [if_neg hnot]
  rw [hvalid, hinvalid]
  refine ⟨rfl, rfl, rfl, ?_, length_suggestTop5_le _ _ _, suggestTop5_sorted _ _ _⟩
  show "Air" ∈ suggestTop5 score "air" ["Air", "Temperature", "Sensor", "Zone"]
  unfold suggestTop5
  rw [List.take_of_length_le (by rw [length_sortByKey]; decide)]
  exact mem_sortByKey.mpr hmem

/-- C3 counterexample: the claim asserts the unrestricted merged suggestion
list is sorted ascending by scorer distance even when the concatenated
per-kind lists have at most 5 entries.  The code only re-sorts when the
concatenation exceeds 5 entries, so with a one-entry class vocabulary whose
sole term is farther from the query than the sole property term, the class
suggestion still precedes the property suggestion. -/
theorem c3_counterexample :
    (validate_brick_term lenScore ["ZZZZ"] ["ax"] "ab" none).suggestions =
      [{ term := "ZZZZ", type := "class" }, { term := "ax", type := "property" }] ∧
    lenScore "ab" "ax" < lenScore "ab" "ZZZZ" ∧
    ¬ SortedByKey (fun s => lenScore "ab" s.term)
        (validate_brick_term lenScore ["ZZZZ"] ["ax"] "ab" none).suggestions := by
  decide

theorem missSuggestions_none_spec (score : String → String → Nat)
    (classes props : List String) (term : String) :
    (missSuggestions score classes props term none).length ≤ 5 ∧
    (∀ s ∈ missSuggestions score classes props term none,
      s.type = "class" ∨ s.type = "property") ∧
    (5 < min 5 classes.length + min 5 props.length →
      SortedByKey (fun s => score term s.term) (missSuggestions score classes props term none) ∧
      (missSuggestions score classes props term none).length = 5 ∧
      ∃ l, List.Perm
          ((suggestTop5 score term classes).map (fun s => { term := s, type := "class" }) ++
           (suggestTop5 score term props).map (fun s => { term := s, type := "property" })) l ∧
        SortedByKey (fun s => score term s.term) l ∧
        missSuggestions score classes props term none = l.take 5) ∧
    (min 5 classes.length + min 5 props.length ≤ 5 →
      missSuggestions score classes props term none =
        (suggestTop5 score term classes).map (fun s => { term := s, type := "class" }) ++
        (suggestTop5 score term props).map (fun s => { term := s, type := "property" })) := by
  have hcomblen :
      ((suggestTop5 score term classes).map
          (fun s => ({ term := s, type := "class" } : Suggestion)) ++
        (suggestTop5 score term props).map
          (fun s => ({ term := s, type := "property" } : Suggestion))).length =
        min 5 classes.length + min 5 props.length := by
    simp [List.length_append, List.length_map, length_suggestTop5]
  rw [missSuggestions_none]
  by_cases hgt : 5 < min 5 classes.length + min 5 props.length
  · rw [if_pos (by rw [hcomblen]; exact hgt)]
    refine ⟨List.length_take_le _ _, ?_, fun _ => ⟨?_, ?_,
      sortByKey (fun s => score term s.term) _, (sortByKey_perm _ _).symm,
      sortByKey_sortedByKey _ _, rfl⟩, fun hle => absurd hgt (by omega)⟩
    · intro s hs
      have hs2 := mem_sortByKey.mp (List.mem_of_mem_take hs)
      rcases List.mem_append.mp hs2 with h | h
      · rcases List.mem_map.mp h with ⟨a, -, rfl⟩
        exact Or.inl rfl
      · rcases List.mem_map.mp h with ⟨a, -, rfl⟩
        exact Or.inr rfl
    · exact List.Pairwise.sublist (List.take_sublist _ _) (sortByKey_sortedByKey _ _)
    · rw [List.length_take, length_sortByKey, hcomblen]
      omega
  · rw [if_neg (by rw [hcomblen]; exact hgt)]
    refine ⟨by rw [hcomblen]; omega, ?_, fun h => absurd h hgt, fun _ => rfl⟩
    intro s hs
    rcases List.mem_append.mp hs with h | h
    · rcases List.mem_map.mp h with ⟨a, -, rfl⟩
      exact Or.inl rfl
    · rcases List.mem_map.mp h with ⟨a, -, rfl⟩
      exact Or.inr rfl

/-- C3 amended: with no `concept_type` restriction and a term in neither
vocabulary, the suggestions form a single list of at most 5 entries, each
tagged "class" or "property".  When the concatenation of the per-kind top-5
lists exceeds 5 entries, the suggestions are the take-5 prefix of an
ascending (by scorer distance) reordering of that concatenation — the
re-ranked truncation, with exactly 5 entries, sorted ascending; when it has 5 or
fewer entries the result is the class suggestions followed by the property
suggestions (each internally ascending) without global re-ranking, so it
need not be globally sorted. -/
theorem c3_amended_merge (score : String → String → Nat)
    (classes props : List String) (term : String)
    (hc : term ∉ classes) (hp : term ∉ props) :
    (validate_brick_term score classes props term none).suggestions.length ≤ 5 ∧
    (∀ s ∈ (validate_brick_term score classes props term none).suggestions,
      s.type = "class" ∨ s.type = "property") ∧
    (5 < min 5 classes.length + min 5 props.length →
      SortedByKey (fun s => score term s.term)
        (validate_brick_term score classes props term none).suggestions ∧
      (validate_brick_term score classes props term none).suggestions.length = 5 ∧
      ∃ l, List.Perm
          ((suggestTop5 score term classes).map (fun s => { term := s, type := "class" }) ++
           (suggestTop5 score term props).map (fun s => { term := s, type := "property" })) l ∧
        SortedByKey (fun s => score term s.term) l ∧
        (validate_brick_term score classes props term none).suggestions = l.take 5) ∧
    (min 5 classes.length + min 5 props.length ≤ 5 →
      (validate_brick_term score classes props term none).suggestions =
        (suggestTop5 score term classes).map (fun s => { term := s, type := "class" }) ++
        (suggestTop5 score term props).map (fun s => { term := s, type := "property" })) := by
  have h1 : ¬(((none : Option String) = none ∨ (none : Option String) = some "class") ∧
      term ∈ classes) := fun h => hc h.2
  have h2 : ¬(((none : Option String) = none ∨ (none : Option String) = some "property") ∧
      term ∈ props) := fun h => hp h.2
  rw [validate_miss h1 h2]
  exact missSuggestions_none_spec score classes props term

/-- Witness for the amended C3 at a concrete input (one where the
concatenated per-kind lists have at most 5 entries). -/
theorem c3_amended_merge_witness :
    (validate_brick_term lenScore ["a", "b"] ["c"] "x" none).suggestions.length ≤ 5 ∧
    (∀ s ∈ (validate_brick_term lenScore ["a", "b"] ["c"] "x" none).suggestions,
      s.type = "class" ∨ s.type = "property") ∧
    (5 < min 5 (["a", "b"] : List String).length + min 5 (["c"] : List String).length →
      SortedByKey (fun s => lenScore "x" s.term)
        (validate_brick_term lenScore ["a", "b"] ["c"] "x" none).suggestions ∧
      (validate_brick_term lenScore ["a", "b"] ["c"] "x" none).suggestions.length = 5 ∧
      ∃ l, List.Perm
          ((suggestTop5 lenScore "x" ["a", "b"]).map (fun s => { term := s, type := "class" }) ++
           (suggestTop5 lenScore "x" ["c"]).map (fun s => { term := s, type := "property" })) l ∧
        SortedByKey (fun s => lenScore "x" s.term) l ∧
        (validate_brick_term lenScore ["a", "b"] ["c"] "x" none).suggestions = l.take 5) ∧
    (min 5 (["a", "b"] : List String).length + min 5 (["c"] : List String).length ≤ 5 →
      (validate_brick_term lenScore ["a", "b"] ["c"] "x" none).suggestions =
        (suggestTop5 lenScore "x" ["a", "b"]).map (fun s => { term := s, type := "class" }) ++
        (suggestTop5 lenScore "x" ["c"]).map (fun s => { term := s, type := "property" })) :=
  c3_amended_merge lenScore ["a", "b"] ["c"] "x" (by decide) (by decide)

end RdfMcp
